import Mathlib

/-!
Verification of the `Reeler` vertical-reel animation engine (reeler.js).

The repository contains several revisions of the same class; the latest one
(v3.8R10, the first document in `src/reeler.js`) is embedded here as the
authoritative code.  Earlier revisions (v3.8R9 in the same file, and v3.3 in
the unnamed sources) are embedded only where a claim explicitly compares
against them.

Modelling conventions:
* JS numbers on the non-exceptional paths are modelled as exact rationals
  (`ℚ`); the IEEE special values `NaN`/`Infinity` that arise on the
  division-by-zero paths are modelled separately by the `JSVal` type, an
  extended rational mirroring IEEE special-value arithmetic exactly.
* The drawing surface, font metrics and the frame scheduler are external
  collaborators (spec §1): `lineHeight` (computed by `_resize` from font
  metrics) is therefore a constructor parameter, timestamps are passed to
  `tick` explicitly, and `requestAnimationFrame` bookkeeping is omitted.
* `tick` returns the successor state together with the list of `onStop`
  hook invocations performed during that tick (each entry the index passed).
* The `targetIndex == null` random branch of `spin` is not modelled; all
  claims concern an explicitly supplied index.
-/

/-- The animation modes of the engine (`this._mode`). -/
inductive Mode where
  | loop
  | spin
  | pause
  | highlight
  | idle
deriving DecidableEq, Repr

/-- The engine instance: option fields and mutable state fields of the
`Reeler` class (v3.8R10 constructor, reeler.js lines 12-51).  String-valued
cosmetic options (font, colors, bg, fadeGradientColor) and the canvas handle
are omitted: no claim mentions them. -/
structure Reeler where
  items : List String
  speed : ℚ
  fadeOutAlpha : ℚ
  zoomScale : ℚ
  highlightDelay : ℚ
  highlightAnimDuration : ℚ
  fadeGradientAlpha : ℚ
  lineHeight : ℚ
  mode : Mode
  offset : ℚ
  targetIdx : ℤ
  spinStart : Option ℚ
  spinT : ℚ
  accel : ℚ
  spinDist : ℚ
  pauseStart : Option ℚ
  highlightStart : Option ℚ
  prevTS : Option ℚ
deriving DecidableEq, Repr

/-- The recognized numeric configuration options (constructor `opts`).
`none` models an absent key. -/
structure Opts where
  speed : Option ℚ := none
  fadeOutAlpha : Option ℚ := none
  zoomScale : Option ℚ := none
  highlightDelay : Option ℚ := none
  highlightAnimDuration : Option ℚ := none
  fadeGradientAlpha : Option ℚ := none
deriving DecidableEq, Repr

/-- JS `opts.x || d`: a present but falsy (numeric `0`) value falls back to
the default, exactly as the `||` operator does on numbers. -/
def truthyOr (o : Option ℚ) (d : ℚ) : ℚ :=
  match o with
  | none => d
  | some v => if v = 0 then d else v

/-- JS `opts.x ?? d`: only an absent (null/undefined) value falls back. -/
def nullishOr (o : Option ℚ) (d : ℚ) : ℚ :=
  o.getD d

/-- The v3.8R10 constructor (reeler.js lines 12-51): resolves options with
their defaults (`||` for all numeric options except `fadeOutAlpha`, which
uses `??`), initializes the state fields, and ends in `startLoop()` which
leaves `mode = loop` and `prevTS = null`.  `lineHeight` stands for
`_lineHeight` as computed by `_resize` from the external font metrics. -/
def Reeler.construct (items : List String) (lineHeight : ℚ) (opts : Opts) : Reeler :=
  { items := items
    speed := truthyOr opts.speed 1500
    fadeOutAlpha := nullishOr opts.fadeOutAlpha (1/5)
    zoomScale := truthyOr opts.zoomScale (9/5)
    highlightDelay := truthyOr opts.highlightDelay 400
    highlightAnimDuration := truthyOr opts.highlightAnimDuration 1200
    fadeGradientAlpha := truthyOr opts.fadeGradientAlpha (3/5)
    lineHeight := lineHeight
    mode := Mode.loop
    offset := 0
    targetIdx := 0
    spinStart := none
    spinT := 0
    accel := 0
    spinDist := 0
    pauseStart := none
    highlightStart := none
    prevTS := none }

/-- The method `startLoop(speedPxPerSec)` (reeler.js lines 54-59): `if (speedPxPerSec)`
is a truthiness test, so passing `0` leaves the speed unchanged; sets
`mode = loop` and clears the frame-time anchor `prevTS`. -/
def Reeler.startLoop (r : Reeler) (speedPxPerSec : Option ℚ) : Reeler :=
  let r1 :=
    match speedPxPerSec with
    | some v => if v = 0 then r else { r with speed := v }
    | none => r
  { r1 with mode := Mode.loop, prevTS := none }

/-- The method `stopLoop()` (reeler.js lines 60-62). -/
def Reeler.stopLoop (r : Reeler) : Reeler :=
  { r with mode := Mode.idle }

/-- The method `spin(targetIndex, {rotations})` (reeler.js lines 67-85), for an
explicitly supplied index.  The index is normalized by
`((targetIndex % n) + n) % n`; JS `%` on integer-valued numbers is the
truncated remainder `Int.tmod`. -/
def Reeler.spin (r : Reeler) (targetIndex : ℤ) (rotations : ℚ) : Reeler :=
  let n : ℤ := r.items.length
  let targetIdx : ℤ := ((targetIndex.tmod n) + n).tmod n
  let cycle : ℚ := (r.items.length : ℚ) * r.lineHeight
  let spinDist : ℚ := rotations * cycle + (targetIdx : ℚ) * r.lineHeight
  let v0 : ℚ := r.speed
  let accel : ℚ := (v0 * v0) / (2 * spinDist)
  let spinT : ℚ := v0 / accel
  { r with
      targetIdx := targetIdx
      spinDist := spinDist
      accel := accel
      spinT := spinT
      spinStart := none
      mode := Mode.spin }

/-- JS `Array.prototype.indexOf`: index of the first element equal to `x`, or
`-1` when absent (used by `spinTo`, reeler.js line 92). -/
def jsIndexOf : List String → String → ℤ
  | [], _ => -1
  | a :: l, x =>
      if a = x then 0
      else
        let rest := jsIndexOf l x
        if rest = -1 then -1 else rest + 1

/-- The method `spinTo(label, opts)` (reeler.js lines 91-96): resolve the label with
`indexOf`; on `-1` return `false` leaving the state untouched, otherwise
delegate to `spin` and return `true`. -/
def Reeler.spinTo (r : Reeler) (label : String) (rotations : ℚ) : Bool × Reeler :=
  let idx := jsIndexOf r.items label
  if idx = -1 then (false, r) else (true, r.spin idx rotations)

/-- The in-flight spin offset formula of the `spin` branch of `_tick`
(reeler.js line 125): `this.speed * t - 0.5 * this._accel * t * t`. -/
def Reeler.spinOffsetAt (r : Reeler) (t : ℚ) : ℚ :=
  r.speed * t - 0.5 * r.accel * t * t

/-- The method `_tick(ts)` (reeler.js lines 113-149).  Returns the successor state and
the list of `onStop` invocations performed during the tick; the v3.8R10
`_tick` body contains no call to `this.onStop`, so the event list is `[]` on
every path.  JS details preserved: a null `prevTS`/`spinStart` is first set
to `ts`; `ts - null` coerces `null` to `0`, which `Option.getD 0` mirrors for
`pauseStart`; `prevTS` is unconditionally assigned `ts` at the end. -/
def Reeler.tick (r : Reeler) (ts : ℚ) : Reeler × List ℤ :=
  let prev : ℚ := r.prevTS.getD ts
  let dt : ℚ := (ts - prev) / 1000
  let r1 :=
    match r.mode with
    | Mode.loop => { r with offset := r.offset + r.speed * dt }
    | Mode.spin =>
        let s0 : ℚ := r.spinStart.getD ts
        let t : ℚ := (ts - s0) / 1000
        if t ≤ r.spinT then
          { r with spinStart := some s0, offset := r.spinOffsetAt t }
        else
          { r with spinStart := some s0, offset := r.spinDist,
                   mode := Mode.pause, pauseStart := some ts }
    | Mode.pause =>
        if ts - r.pauseStart.getD 0 ≥ r.highlightDelay then
          { r with mode := Mode.highlight, highlightStart := some ts }
        else r
    | Mode.highlight => r
    | Mode.idle => r
  ({ r1 with prevTS := some ts }, [])

/-- The easing `_easeOutCubic(t) = 1 - Math.pow(1 - t, 3)` (reeler.js lines 229-231). -/
def easeOutCubic (t : ℚ) : ℚ :=
  1 - (1 - t) ^ 3

/-- Truncation toward zero, as JS number-to-integer truncation: the
truncated quotient of numerator by denominator. -/
def ratTrunc (q : ℚ) : ℤ :=
  q.num.tdiv q.den

/-- The JS `%` remainder on finite numbers with a nonzero divisor:
`p - q * trunc(p / q)` (the divisor-zero NaN case is modelled by
`JSVal.mod` below). -/
def jsModQ (p q : ℚ) : ℚ :=
  p - q * (ratTrunc (p / q) : ℚ)

/-- The wrapped rendering offset computed by `_tick` (reeler.js lines
143-144) and handed to `_draw`: `((offset % cycle) + cycle) % cycle` with
`cycle = items.length * lineHeight`. -/
def Reeler.offsetMod (r : Reeler) : ℚ :=
  let cycle : ℚ := (r.items.length : ℚ) * r.lineHeight
  jsModQ (jsModQ r.offset cycle + cycle) cycle

/-- The zoom progress computed in `_draw` (reeler.js lines 186-192):
`min(1, (now - highlightStart) / highlightAnimDuration)` in highlight mode,
`0` otherwise. -/
def Reeler.zoomP (r : Reeler) (now : ℚ) : ℚ :=
  if r.mode = Mode.highlight then
    min 1 ((now - r.highlightStart.getD 0) / r.highlightAnimDuration)
  else 0

/-- What `_draw` computes for one candidate row. -/
structure RowRender where
  y : ℚ
  idx : ℕ
  visible : Bool
  alpha : ℚ
  scale : ℚ
deriving DecidableEq, Repr

/-- Row `i` of the v3.8R10 `_draw` loop (reeler.js lines 194-218), as drawn
on a surface of height `H` at timestamp `now`: cyclic index `i % n`,
vertical position `centerY - offsetMod + i*lineHeight - n*lineHeight`,
culling margin one `lineHeight`, and in highlight mode the zoom applied to
a row within half a `lineHeight` of center (reeler.js lines 200-209 test
`inCenter` only) while every other row renders at `fadeOutAlpha`. -/
def Reeler.drawRow (r : Reeler) (H now : ℚ) (i : ℕ) : RowRender :=
  let centerY : ℚ := H / 2
  let baseY : ℚ := centerY - r.offsetMod
  let p : ℚ := r.zoomP now
  let idx : ℕ := i % r.items.length
  let y : ℚ := baseY + (i : ℚ) * r.lineHeight - (r.items.length : ℚ) * r.lineHeight
  let visible : Bool := decide (¬ (y < -r.lineHeight ∨ y > H + r.lineHeight))
  let attrs : ℚ × ℚ :=
    if r.mode = Mode.highlight then
      if |y - centerY| < r.lineHeight * 0.5 then
        (1, 1 + (r.zoomScale - 1) * easeOutCubic p)
      else (r.fadeOutAlpha, 1)
    else (1, 1)
  { y := y, idx := idx, visible := visible, alpha := attrs.1, scale := attrs.2 }

/-- The highlight-mode row attributes of the earlier v3.8R9 `_draw`
(reeler.js lines 424-431): identical to v3.8R10 except that the zoom branch
additionally requires `idx === this._targetIdx`. -/
def Reeler.rowAttrsR9 (r : Reeler) (p y centerY : ℚ) (idx : ℕ) : ℚ × ℚ :=
  if |y - centerY| < r.lineHeight * 0.5 ∧ (idx : ℤ) = r.targetIdx then
    (1, 1 + (r.zoomScale - 1) * easeOutCubic p)
  else (r.fadeOutAlpha, 1)

/-- The guard around both vignette gradients in `_draw` (reeler.js line
158): they are emitted iff `fadeGradientAlpha > 0`. -/
def Reeler.vignetteDrawn (r : Reeler) : Bool :=
  decide (0 < r.fadeGradientAlpha)

/-! ## IEEE special-value model of the spin arithmetic

`JSVal` is an extended rational mirroring how JS (IEEE-754 double)
arithmetic treats `NaN` and `±Infinity`; the finite case is exact.  Only
the operations appearing in `spin`/`_tick` are defined. -/

/-- A JS number: finite (exact rational), `NaN`, or `±Infinity`. -/
inductive JSVal where
  | nan
  | inf
  | ninf
  | fin (q : ℚ)
deriving DecidableEq, Repr

namespace JSVal

/-- IEEE addition. -/
def add : JSVal → JSVal → JSVal
  | nan, _ => nan
  | _, nan => nan
  | inf, ninf => nan
  | ninf, inf => nan
  | inf, _ => inf
  | _, inf => inf
  | ninf, _ => ninf
  | _, ninf => ninf
  | fin p, fin q => fin (p + q)

/-- IEEE negation. -/
def neg : JSVal → JSVal
  | nan => nan
  | inf => ninf
  | ninf => inf
  | fin q => fin (-q)

/-- IEEE subtraction. -/
def sub (a b : JSVal) : JSVal :=
  add a (neg b)

/-- IEEE multiplication (`0 * ±Infinity = NaN`; signed zeros are collapsed
to `0`, which is sound for the magnitude/NaN claims proved here). -/
def mul : JSVal → JSVal → JSVal
  | nan, _ => nan
  | _, nan => nan
  | inf, inf => inf
  | inf, ninf => ninf
  | ninf, inf => ninf
  | ninf, ninf => inf
  | inf, fin q => if q = 0 then nan else if 0 < q then inf else ninf
  | fin q, inf => if q = 0 then nan else if 0 < q then inf else ninf
  | ninf, fin q => if q = 0 then nan else if 0 < q then ninf else inf
  | fin q, ninf => if q = 0 then nan else if 0 < q then ninf else inf
  | fin p, fin q => fin (p * q)

/-- IEEE division (`x / 0 = ±Infinity` for `x ≠ 0`, `0 / 0 = NaN`,
finite `/ ±Infinity = 0`, `±Infinity / ±Infinity = NaN`). -/
def div : JSVal → JSVal → JSVal
  | nan, _ => nan
  | _, nan => nan
  | inf, inf => nan
  | inf, ninf => nan
  | ninf, inf => nan
  | ninf, ninf => nan
  | inf, fin q => if 0 ≤ q then inf else ninf
  | ninf, fin q => if 0 ≤ q then ninf else inf
  | fin _, inf => fin 0
  | fin _, ninf => fin 0
  | fin p, fin q =>
      if q = 0 then (if p = 0 then nan else if 0 < p then inf else ninf)
      else fin (p / q)

/-- The JS `%` remainder: `NaN` when either operand is `NaN`, the dividend
is `±Infinity`, or the divisor is `0`; the dividend when the divisor is
`±Infinity`; truncated remainder on finite operands. -/
def mod : JSVal → JSVal → JSVal
  | nan, _ => nan
  | _, nan => nan
  | inf, _ => nan
  | ninf, _ => nan
  | fin p, inf => fin p
  | fin p, ninf => fin p
  | fin p, fin q => if q = 0 then nan else fin (jsModQ p q)

/-- The JS `<=` comparison: `false` whenever an operand is `NaN`. -/
def le : JSVal → JSVal → Bool
  | nan, _ => false
  | _, nan => false
  | ninf, _ => true
  | _, inf => true
  | inf, _ => false
  | fin _, ninf => false
  | fin p, fin q => decide (p ≤ q)

instance : Add JSVal := ⟨JSVal.add⟩
instance : Neg JSVal := ⟨JSVal.neg⟩
instance : Sub JSVal := ⟨JSVal.sub⟩
instance : Mul JSVal := ⟨JSVal.mul⟩
instance : Div JSVal := ⟨JSVal.div⟩
instance : Mod JSVal := ⟨JSVal.mod⟩

end JSVal

/-- The spin parameters `spin` computes (reeler.js lines 67-84). -/
structure SpinParamsJS where
  targetIdx : JSVal
  spinDist : JSVal
  accel : JSVal
  spinT : JSVal
deriving DecidableEq, Repr

/-- The arithmetic of `spin(targetIndex, {rotations})` (reeler.js lines
67-84) carried out in JS number semantics, so that the division-by-zero and
empty-item-list paths produce the same `Infinity`/`NaN` values the code
does.  `n` is `this.items.length`. -/
def spinParamsJS (n : ℕ) (lineHeight speed targetIndex rotations : JSVal) :
    SpinParamsJS :=
  let len : JSVal := JSVal.fin n
  let targetIdx : JSVal := ((targetIndex % len) + len) % len
  let cycle : JSVal := len * lineHeight
  let spinDist : JSVal := rotations * cycle + targetIdx * lineHeight
  let v0 : JSVal := speed
  let accel : JSVal := (v0 * v0) / (JSVal.fin 2 * spinDist)
  let spinT : JSVal := v0 / accel
  { targetIdx := targetIdx, spinDist := spinDist, accel := accel, spinT := spinT }

/-- The offset assignment of the `spin` branch of `_tick` (reeler.js lines
121-130) in JS number semantics: while `t <= spinT` the kinematic formula
`speed*t - 0.5*accel*t*t`, otherwise the clamp to `spinDist`. -/
def spinTickOffsetJS (speed accel spinT spinDist t : JSVal) : JSVal :=
  if t.le spinT then speed * t - JSVal.fin (1/2) * accel * t * t
  else spinDist

/-! ## The v3.3 revision (`src/unnamed/part_000`)

The earliest revision in the repository is the only one whose `_tick`
invokes the `onStop` hook; it is embedded to witness where that call lived
(at its spin completion, which in v3.3 transitions directly to
`highlight` — v3.3 has no `pause` mode). -/

/-- The state fields of the v3.3 `Reeler` (part_000 lines 16-46, 61-79)
needed for its `_tick`. -/
structure ReelerV33 where
  items : List String
  speed : ℚ
  lineHeight : ℚ
  mode : Mode
  offset : ℚ
  targetIdx : ℤ
  v0 : ℚ
  a : ℚ
  spinDurSec : ℚ
  spinTotalDist : ℚ
  spinStart : Option ℚ
  highlightStart : Option ℚ
  startTime : Option ℚ
deriving DecidableEq, Repr

/-- The v3.3 `_tick(ts)` (part_000 lines 98-127): `loop` advances and wraps
the offset; `spin` evaluates the kinematic formula while
`tSec < spinDurSec`, and at completion clamps the offset, transitions
directly to `highlight`, and invokes `this.onStop?.(this._targetIdx)`
(line 116) — the returned list records that invocation.  Unlike v3.8R10's
`== null` tests, v3.3 anchors its clocks with the falsy tests
`if (!this._startTime)` (line 99) and `if (!this._spinStart)` (line 107), so
an anchor that is null or `0` is replaced by `ts` — exactly the `x || ts`
resolution `truthyOr` models. -/
def tickV33 (r : ReelerV33) (ts : ℚ) : ReelerV33 × List ℤ :=
  let startTime : ℚ := truthyOr r.startTime ts
  let dt : ℚ := ts - startTime
  let step : ReelerV33 × List ℤ :=
    match r.mode with
    | Mode.loop =>
        ({ r with offset := jsModQ (r.offset + r.speed * dt / 1000)
                    (r.lineHeight * (r.items.length : ℚ)) }, [])
    | Mode.spin =>
        let s0 : ℚ := truthyOr r.spinStart ts
        let tSec : ℚ := (ts - s0) / 1000
        if tSec < r.spinDurSec then
          ({ r with spinStart := some s0,
                    offset := r.v0 * tSec - 0.5 * r.a * tSec * tSec }, [])
        else
          ({ r with spinStart := some s0, offset := r.spinTotalDist,
                    mode := Mode.highlight, highlightStart := some ts },
           [r.targetIdx])
    | _ => (r, [])
  ({ step.1 with startTime := some ts }, step.2)

/-! ## Shared arithmetic lemmas -/

/-- JS truncated remainder negation: `(-a) % n = -(a % n)` for `Int.tmod`. -/
theorem neg_tmod_eq (a b : ℤ) : (-a).tmod b = -(a.tmod b) := by
  rw [Int.tmod_def, Int.tmod_def, Int.neg_tdiv]
  ring

/-- The normalization `((i % n) + n) % n` used by `spin` (reeler.js lines
71-73), with `%` the JS truncated remainder, computes the true
(Euclidean) modulo for every integer `i` and positive `n`. -/
theorem tmod_add_tmod_eq_emod (i n : ℤ) (h : 0 < n) :
    ((i.tmod n) + n).tmod n = i.emod n := by
  rcases le_or_lt 0 i with hi | hi
  · rw [Int.tmod_eq_emod hi h.le]
    have hr0 : 0 ≤ i % n := Int.emod_nonneg _ (by omega)
    rw [Int.tmod_eq_emod (by omega) h.le, Int.add_emod_self, Int.emod_emod]
    rfl
  · have h1 : i.tmod n = -((-i).tmod n) := by
      rw [← neg_tmod_eq, neg_neg]
    have h2 : (-i).tmod n = (-i) % n := Int.tmod_eq_emod (by omega) h.le
    have hr0 : 0 ≤ (-i) % n := Int.emod_nonneg _ (by omega)
    have hrn : (-i) % n < n := Int.emod_lt_of_pos _ h
    rw [h1, h2, Int.tmod_eq_emod (by omega) h.le]
    show (-(-i % n) + n) % n = i % n
    rw [Int.emod_eq_emod_iff_emod_sub_eq_zero]
    have h4 : n * ((-i) / n) + (-i) % n = -i := Int.ediv_add_emod _ _
    have h5 : -((-i) % n) + n - i = n * (1 + (-i) / n) := by
      have h6 : (-i) % n = -i - n * ((-i) / n) := by linarith
      rw [h6]
      ring
    rw [h5]
    exact Int.mul_emod_right _ _

/-! ## Helper equations for `tick` and `spin` -/

/-- The hook-invocation list of a v3.8R10 tick is empty on every path:
the `_tick` body contains no call site of `onStop`. -/
theorem tick_events_nil (r : Reeler) (ts : ℚ) : (r.tick ts).2 = [] :=
  rfl

/-- Unfolding `tick` in `loop` mode. -/
theorem tick_loop_eq (r : Reeler) (ts : ℚ) (hm : r.mode = Mode.loop) :
    (r.tick ts).1 =
      { r with offset := r.offset + r.speed * ((ts - r.prevTS.getD ts) / 1000),
               prevTS := some ts } := by
  obtain ⟨it, sp, fo, zs, hd, had, fga, lh, mo, off, ti, ss, st, ac, sd, ps, hs, pts⟩ := r
  simp only [Reeler.mode] at hm
  subst hm
  rfl

/-- Unfolding `tick` in `spin` mode while the elapsed spin time is within
the computed duration. -/
theorem tick_spin_le_eq (r : Reeler) (ts : ℚ) (hm : r.mode = Mode.spin)
    (hle : (ts - r.spinStart.getD ts) / 1000 ≤ r.spinT) :
    (r.tick ts).1 =
      { r with spinStart := some (r.spinStart.getD ts),
               offset := r.spinOffsetAt ((ts - r.spinStart.getD ts) / 1000),
               prevTS := some ts } := by
  obtain ⟨it, sp, fo, zs, hd, had, fga, lh, mo, off, ti, ss, st, ac, sd, ps, hs, pts⟩ := r
  simp only [Reeler.mode] at hm
  subst hm
  simp only [Reeler.tick, Reeler.spinStart, Reeler.spinT] at hle ⊢
  rw [if_pos hle]

/-- Unfolding `tick` in `spin` mode once the elapsed spin time exceeds the
computed duration: the offset clamps to `spinDist` and the mode becomes
`pause`. -/
theorem tick_spin_gt_eq (r : Reeler) (ts : ℚ) (hm : r.mode = Mode.spin)
    (hgt : ¬ (ts - r.spinStart.getD ts) / 1000 ≤ r.spinT) :
    (r.tick ts).1 =
      { r with spinStart := some (r.spinStart.getD ts),
               offset := r.spinDist, mode := Mode.pause,
               pauseStart := some ts, prevTS := some ts } := by
  obtain ⟨it, sp, fo, zs, hd, had, fga, lh, mo, off, ti, ss, st, ac, sd, ps, hs, pts⟩ := r
  simp only [Reeler.mode] at hm
  subst hm
  simp only [Reeler.tick, Reeler.spinStart, Reeler.spinT] at hgt ⊢
  rw [if_neg hgt]

/-- Unfolding `tick` in `pause` mode once the highlight delay has elapsed. -/
theorem tick_pause_ge_eq (r : Reeler) (ts : ℚ) (hm : r.mode = Mode.pause)
    (hge : ts - r.pauseStart.getD 0 ≥ r.highlightDelay) :
    (r.tick ts).1 =
      { r with mode := Mode.highlight, highlightStart := some ts,
               prevTS := some ts } := by
  obtain ⟨it, sp, fo, zs, hd, had, fga, lh, mo, off, ti, ss, st, ac, sd, ps, hs, pts⟩ := r
  simp only [Reeler.mode] at hm
  subst hm
  simp only [Reeler.tick, Reeler.pauseStart, Reeler.highlightDelay] at hge ⊢
  rw [if_pos hge]

/-- Unfolding `tick` in `idle` mode: only the frame-time anchor changes. -/
theorem tick_idle_eq (r : Reeler) (ts : ℚ) (hm : r.mode = Mode.idle) :
    (r.tick ts).1 = { r with prevTS := some ts } := by
  obtain ⟨it, sp, fo, zs, hd, had, fga, lh, mo, off, ti, ss, st, ac, sd, ps, hs, pts⟩ := r
  simp only [Reeler.mode] at hm
  subst hm
  rfl

/-- Projections of `spin`: the stored parameters in terms of the computed
distance. -/
theorem spin_proj (r : Reeler) (tgt : ℤ) (rot : ℚ) :
    (r.spin tgt rot).targetIdx
        = ((tgt.tmod r.items.length) + r.items.length).tmod r.items.length ∧
    (r.spin tgt rot).spinDist
        = rot * ((r.items.length : ℚ) * r.lineHeight)
          + ((r.spin tgt rot).targetIdx : ℚ) * r.lineHeight ∧
    (r.spin tgt rot).accel
        = r.speed * r.speed / (2 * (r.spin tgt rot).spinDist) ∧
    (r.spin tgt rot).spinT = r.speed / (r.spin tgt rot).accel ∧
    (r.spin tgt rot).speed = r.speed ∧
    (r.spin tgt rot).mode = Mode.spin ∧
    (r.spin tgt rot).spinStart = none ∧
    (r.spin tgt rot).items = r.items ∧
    (r.spin tgt rot).lineHeight = r.lineHeight := by
  refine ⟨rfl, rfl, rfl, rfl, rfl, rfl, rfl, rfl, rfl⟩

/-! ## Concrete demonstration states (the spec §8 scenario) -/

/-- The five-item list of the spec scenario. -/
def demoItems : List String := ["A", "B", "C", "D", "E"]

/-- The scenario engine: 5 items, `lineHeight = 150`, all options defaulted
(so `speed = 1500`). -/
def demoReel : Reeler := Reeler.construct demoItems 150 {}

/-- Concrete evaluation of the index normalization for index 2 among 5. -/
theorem tmod_norm_two_five : (((2 : ℤ).tmod 5) + 5).tmod 5 = 2 := by decide

/-- Concrete evaluation of the index normalization for index 0 among 5. -/
theorem tmod_norm_zero_five : (((0 : ℤ).tmod 5) + 5).tmod 5 = 0 := by decide

/-- Concrete evaluation of the index normalization for index -1 among 5. -/
theorem tmod_norm_neg_one_five : ((((-1) : ℤ).tmod 5) + 5).tmod 5 = 4 := by decide

/-- Ticking a freshly created spin (spin clock not yet anchored) at
timestamp `0` and then at timestamp `ts` within the spin duration evaluates
the kinematic offset formula at spin-elapsed time `ts/1000` seconds. -/
theorem spin_two_ticks_offset (r : Reeler) (ts : ℚ) (hm : r.mode = Mode.spin)
    (hss : r.spinStart = none) (hT0 : 0 ≤ r.spinT) (hle : ts / 1000 ≤ r.spinT) :
    ((r.tick 0).1.tick ts).1.offset = r.spinOffsetAt (ts / 1000) := by
  obtain ⟨it, sp, fo, zs, hd, had, fga, lh, mo, off, ti, ss, st, ac, sd, ps, hs, pts⟩ := r
  simp only [Reeler.mode] at hm
  simp only [Reeler.spinStart] at hss
  simp only [Reeler.spinT] at hT0 hle
  subst hm
  subst hss
  simp only [Reeler.tick, Option.getD_none, Option.getD_some, Reeler.spinOffsetAt]
  rw [if_pos (by norm_num [hT0] : ((0:ℚ) - 0) / 1000 ≤ st)]
  simp only [Option.getD_some]
  rw [if_pos (by rw [sub_zero]; exact hle)]
  rw [sub_zero]

/-- Claim C3: for every valid spin with start speed `v0 > 0` and positive
total distance `D`, `spin` stores the deceleration `a = v0²/(2D)` and the
duration `T = v0/a`, and ticking the fresh spin once at timestamp `0` (to
anchor the spin clock) and then at timestamp `1000·T` (spin-elapsed time
`t = T` seconds) leaves the offset exactly at `D`. -/
theorem claim3_spin_kinematics (r : Reeler) (tgt : ℤ) (rot : ℚ)
    (hv : 0 < r.speed) (hD : 0 < (r.spin tgt rot).spinDist) :
    (r.spin tgt rot).accel = r.speed * r.speed / (2 * (r.spin tgt rot).spinDist) ∧
    (r.spin tgt rot).spinT = r.speed / (r.spin tgt rot).accel ∧
    ((((r.spin tgt rot).tick 0).1).tick (1000 * (r.spin tgt rot).spinT)).1.offset
      = (r.spin tgt rot).spinDist := by
  obtain ⟨-, -, haccel, hT, hspeed, hmode, hss, -, -⟩ := spin_proj r tgt rot
  set r1 := r.spin tgt rot with hr1
  have ha : 0 < r1.accel := by
    rw [haccel]
    exact div_pos (mul_pos hv hv) (by linarith)
  have hT0 : 0 < r1.spinT := by
    rw [hT]
    exact div_pos hv ha
  have harg : (1000 * r1.spinT) / 1000 = r1.spinT := by
    rw [mul_comm, mul_div_assoc]
    norm_num
  have hofs : ((r1.tick 0).1.tick (1000 * r1.spinT)).1.offset
      = r1.spinOffsetAt ((1000 * r1.spinT) / 1000) :=
    spin_two_ticks_offset r1 (1000 * r1.spinT) hmode hss hT0.le (le_of_eq harg)
  refine ⟨haccel, hT, ?_⟩
  rw [hofs, harg]
  show r1.speed * r1.spinT - 0.5 * r1.accel * r1.spinT * r1.spinT = r1.spinDist
  have hTval : r1.spinT = 2 * r1.spinDist / r.speed := by
    rw [hT, haccel]
    field_simp
    ring
  rw [hspeed, hTval, haccel]
  field_simp
  ring

/-- Witness for C3: the spec §8 scenario `spin(2, {rotations: 6})` on the
5-item reel with `speed = 1500`, `lineHeight = 150` gives `D = 4800`,
`a = 234.375`, `T = 6.4 s`, and offset exactly `4800` at `t = T`. -/
theorem claim3_spin_kinematics_witness :
    (demoReel.spin 2 6).spinDist = 4800 ∧
    (demoReel.spin 2 6).accel = 234.375 ∧
    (demoReel.spin 2 6).spinT = 6.4 ∧
    ((((demoReel.spin 2 6).tick 0).1).tick (1000 * (demoReel.spin 2 6).spinT)).1.offset
      = (demoReel.spin 2 6).spinDist := by
  have hv : 0 < demoReel.speed := by
    norm_num [demoReel, Reeler.construct, truthyOr]
  have hD : 0 < (demoReel.spin 2 6).spinDist := by
    norm_num [demoReel, Reeler.construct, truthyOr, Reeler.spin, demoItems, tmod_norm_two_five]
  refine ⟨?_, ?_, ?_, (claim3_spin_kinematics demoReel 2 6 hv hD).2.2⟩
  · norm_num [demoReel, Reeler.construct, truthyOr, Reeler.spin, demoItems, tmod_norm_two_five]
  · norm_num [demoReel, Reeler.construct, truthyOr, Reeler.spin, demoItems, tmod_norm_two_five]
  · norm_num [demoReel, Reeler.construct, truthyOr, Reeler.spin, demoItems, tmod_norm_two_five]

/-- Claim C7: the in-flight spin offset `v0*t - 0.5*a*t²` of a valid spin
is monotonically non-decreasing over the whole interval `[0, T]`. -/
theorem claim7_spin_offset_monotone (r : Reeler) (tgt : ℤ) (rot t1 t2 : ℚ)
    (hv : 0 < r.speed) (hD : 0 < (r.spin tgt rot).spinDist)
    (h1 : 0 ≤ t1) (h12 : t1 ≤ t2) (h2 : t2 ≤ (r.spin tgt rot).spinT) :
    (r.spin tgt rot).spinOffsetAt t1 ≤ (r.spin tgt rot).spinOffsetAt t2 := by
  obtain ⟨-, -, haccel, hT, hspeed, -, -, -, -⟩ := spin_proj r tgt rot
  set r1 := r.spin tgt rot with hr1
  have ha : 0 < r1.accel := by
    rw [haccel]
    exact div_pos (mul_pos hv hv) (by linarith)
  have hat2 : r1.accel * t2 ≤ r1.speed := by
    rw [hT] at h2
    have h3 : t2 * r1.accel ≤ r.speed := (le_div_iff ha).mp h2
    rw [hspeed]
    linarith
  show r1.speed * t1 - 0.5 * r1.accel * t1 * t1
      ≤ r1.speed * t2 - 0.5 * r1.accel * t2 * t2
  nlinarith [mul_nonneg (sub_nonneg.mpr h12) (sub_nonneg.mpr hat2),
    mul_nonneg ha.le (sq_nonneg (t2 - t1)), sq_nonneg (t2 - t1)]

/-- Witness for C7: in the spec scenario, the offset at `t = 3` is no
larger than the offset at `t = 6.4 = T`. -/
theorem claim7_spin_offset_monotone_witness :
    (demoReel.spin 2 6).spinOffsetAt 3 ≤ (demoReel.spin 2 6).spinOffsetAt 6.4 :=
  claim7_spin_offset_monotone demoReel 2 6 3 6.4
    (by norm_num [demoReel, Reeler.construct, truthyOr])
    (by norm_num [demoReel, Reeler.construct, truthyOr, Reeler.spin, demoItems,
      tmod_norm_two_five])
    (by norm_num) (by norm_num)
    (by norm_num [demoReel, Reeler.construct, truthyOr, Reeler.spin, demoItems,
      tmod_norm_two_five])

/-- Claim C6: for every integer target index (negative or out-of-range
included) and non-empty item list, `spin` stores the index normalized by
`((targetIndex % n) + n) % n`, which equals the true (Euclidean) modulo and
lies in `[0, itemCount)`. -/
theorem claim6_index_normalization (r : Reeler) (tgt : ℤ) (rot : ℚ)
    (hn : 0 < r.items.length) :
    (r.spin tgt rot).targetIdx
        = ((tgt.tmod r.items.length) + r.items.length).tmod r.items.length ∧
    (r.spin tgt rot).targetIdx = tgt.emod r.items.length ∧
    0 ≤ (r.spin tgt rot).targetIdx ∧
    (r.spin tgt rot).targetIdx < r.items.length := by
  obtain ⟨hidx, -, -, -, -, -, -, -, -⟩ := spin_proj r tgt rot
  have hnz : (0:ℤ) < (r.items.length : ℤ) := by exact_mod_cast hn
  have hemod : (r.spin tgt rot).targetIdx = tgt.emod r.items.length := by
    rw [hidx]
    exact tmod_add_tmod_eq_emod tgt _ hnz
  refine ⟨hidx, hemod, ?_, ?_⟩
  · rw [hemod]
    exact Int.emod_nonneg tgt (ne_of_gt hnz)
  · rw [hemod]
    exact Int.emod_lt_of_pos tgt hnz

/-- Witness for C6: index `-1` with the 5-item reel resolves to `4`. -/
theorem claim6_index_normalization_witness :
    (demoReel.spin (-1) 6).targetIdx = Int.emod (-1) demoReel.items.length ∧
    (demoReel.spin (-1) 6).targetIdx = 4 := by
  have h := claim6_index_normalization demoReel (-1) 6
    (by norm_num [demoReel, Reeler.construct, demoItems])
  refine ⟨h.2.1, ?_⟩
  rw [h.2.1]
  norm_num [demoReel, Reeler.construct, demoItems]

/-- The result of `jsIndexOf` is either the not-found sentinel `-1` or a
nonnegative index. -/
theorem jsIndexOf_neg_one_or_nonneg (l : List String) (x : String) :
    jsIndexOf l x = -1 ∨ 0 ≤ jsIndexOf l x := by
  induction l with
  | nil => left; rfl
  | cons a l ih =>
    by_cases h : a = x
    · right
      simp [jsIndexOf, h]
    · rcases ih with h2 | h2
      · left
        simp [jsIndexOf, h, h2]
      · right
        have hne : jsIndexOf l x ≠ -1 := by omega
        simp [jsIndexOf, h, hne]
        omega

/-- `jsIndexOf` returns the sentinel `-1` exactly on absent labels. -/
theorem jsIndexOf_eq_neg_one_iff (l : List String) (x : String) :
    jsIndexOf l x = -1 ↔ x ∉ l := by
  induction l with
  | nil => simp [jsIndexOf]
  | cons a l ih =>
    by_cases h : a = x
    · subst h
      simp [jsIndexOf]
    · rcases jsIndexOf_neg_one_or_nonneg l x with h2 | h2
      · simp [jsIndexOf, h, h2, ih.mp h2]
        exact fun h3 => h h3.symm
      · have hne : jsIndexOf l x ≠ -1 := by omega
        have hmem : x ∈ l := by
          by_contra hab
          exact hne (ih.mpr hab)
        simp [jsIndexOf, h, hne, hmem]
        omega

/-- On a present label, `jsIndexOf` returns the index of the first
occurrence: the element there is the label and no earlier position holds
it. -/
theorem jsIndexOf_first_match (l : List String) (x : String) (hx : x ∈ l) :
    0 ≤ jsIndexOf l x ∧
    l.get? (jsIndexOf l x).toNat = some x ∧
    ∀ j : ℕ, (j : ℤ) < jsIndexOf l x → l.get? j ≠ some x := by
  induction l with
  | nil => cases hx
  | cons a l ih =>
    by_cases h : a = x
    · subst h
      refine ⟨by simp [jsIndexOf], by simp [jsIndexOf], ?_⟩
      intro j hj
      simp [jsIndexOf] at hj
      omega
    · have hx2 : x ∈ l := by
        rcases List.mem_cons.mp hx with h2 | h2
        · exact absurd h2.symm h
        · exact h2
      obtain ⟨h0, hget, hmin⟩ := ih hx2
      have hne : jsIndexOf l x ≠ -1 := by omega
      have hval : jsIndexOf (a :: l) x = jsIndexOf l x + 1 := by
        simp [jsIndexOf, h, hne]
      refine ⟨by omega, ?_, ?_⟩
      · rw [hval]
        have htn : (jsIndexOf l x + 1).toNat = (jsIndexOf l x).toNat + 1 := by omega
        rw [htn]
        simpa using hget
      · intro j hj
        rw [hval] at hj
        cases j with
        | zero =>
          simp
          exact fun h2 => h h2
        | succ k =>
          have hk : (k : ℤ) < jsIndexOf l x := by
            push_cast at hj ⊢
            omega
          simpa using hmin k hk

/-- Claim C4: `spinTo` on an absent label returns `false` with the entire
state unchanged; on a present label it returns `true` with exactly the
state `spin(indexOf(label), opts)` produces, `indexOf` resolving to the
first matching index. -/
theorem claim4_spinTo_contract (r : Reeler) (label : String) (rot : ℚ) :
    (label ∉ r.items → r.spinTo label rot = (false, r)) ∧
    (label ∈ r.items →
      r.spinTo label rot = (true, r.spin (jsIndexOf r.items label) rot) ∧
      r.items.get? (jsIndexOf r.items label).toNat = some label ∧
      ∀ j : ℕ, (j : ℤ) < jsIndexOf r.items label → r.items.get? j ≠ some label) := by
  constructor
  · intro hab
    have h1 : jsIndexOf r.items label = -1 :=
      (jsIndexOf_eq_neg_one_iff r.items label).mpr hab
    simp [Reeler.spinTo, h1]
  · intro hmem
    obtain ⟨h0, hget, hmin⟩ := jsIndexOf_first_match r.items label hmem
    have h1 : jsIndexOf r.items label ≠ -1 := by omega
    refine ⟨?_, hget, hmin⟩
    simp [Reeler.spinTo, h1]

/-- Witness for C4: on the 5-item reel, `spinTo` of an absent label fails
leaving the state unchanged, and `spinTo` of a present label delegates to
`spin` at its first index. -/
theorem claim4_spinTo_contract_witness :
    demoReel.spinTo ("Z") 6 = (false, demoReel) ∧
    demoReel.spinTo ("C") 6 = (true, demoReel.spin (jsIndexOf demoReel.items ("C")) 6) := by
  constructor
  · exact (claim4_spinTo_contract demoReel ("Z") 6).1
      (by norm_num [demoReel, Reeler.construct, demoItems]; decide)
  · exact ((claim4_spinTo_contract demoReel ("C") 6).2
      (by norm_num [demoReel, Reeler.construct, demoItems])).1

/-- A reel stopped mid-loop: two loop ticks advance the offset to `300`,
then `stopLoop()` freezes the engine in `idle`. -/
def c8Reel : Reeler :=
  ((((Reeler.construct demoItems 150 {}).tick 0).1.tick 200).1).stopLoop

/-- Counterexample to C8 as stated: a tick delivered in `idle` mode does
change a state field — the frame-time anchor `prevTS` is unconditionally
assigned the tick's timestamp (reeler.js line 146) — so "the offset and all
other state fields unchanged on every subsequent tick" fails, even though
the offset itself stays frozen. -/
theorem claim8_counterexample :
    c8Reel.mode = Mode.idle ∧ c8Reel.offset = 300 ∧ c8Reel.prevTS = some 200 ∧
    (c8Reel.tick 500).1.offset = c8Reel.offset ∧
    (c8Reel.tick 500).1.prevTS = some 500 ∧
    (c8Reel.tick 500).1 ≠ c8Reel := by
  have h1 : c8Reel.mode = Mode.idle := by
    norm_num [c8Reel, Reeler.construct, Reeler.stopLoop, Reeler.tick, truthyOr,
      nullishOr, demoItems]
  have h2 : c8Reel.offset = 300 := by
    norm_num [c8Reel, Reeler.construct, Reeler.stopLoop, Reeler.tick, truthyOr,
      nullishOr, demoItems]
  have h3 : c8Reel.prevTS = some 200 := by
    norm_num [c8Reel, Reeler.construct, Reeler.stopLoop, Reeler.tick, truthyOr,
      nullishOr, demoItems]
  have h4 := tick_idle_eq c8Reel 500 h1
  refine ⟨h1, h2, h3, ?_, ?_, ?_⟩
  · rw [h4]
  · rw [h4]
  · intro h5
    have h6 := congrArg Reeler.prevTS h5
    rw [h4] at h6
    simp [h3] at h6

/-- Claim C8 (amended): `stopLoop()` sets the mode to `idle`; every
subsequent tick leaves the offset and every state field except the
frame-time anchor `prevTS` unchanged (`prevTS` is assigned the tick's
timestamp); a following `startLoop()` resumes offset advancement from the
frozen offset value, not from `0` — its first tick re-anchors the clock
(advancing by zero) and the next tick advances by `speed · Δt`. -/
theorem claim8_stopLoop_freezes_offset (r : Reeler) (ts ts2 : ℚ)
    (hm : r.mode = Mode.idle) :
    ((r.tick ts).1.offset = r.offset ∧
      (r.tick ts).1.mode = Mode.idle ∧
      (r.tick ts).1.items = r.items ∧
      (r.tick ts).1.speed = r.speed ∧
      (r.tick ts).1.targetIdx = r.targetIdx ∧
      (r.tick ts).1.spinStart = r.spinStart ∧
      (r.tick ts).1.spinT = r.spinT ∧
      (r.tick ts).1.accel = r.accel ∧
      (r.tick ts).1.spinDist = r.spinDist ∧
      (r.tick ts).1.pauseStart = r.pauseStart ∧
      (r.tick ts).1.highlightStart = r.highlightStart ∧
      (r.tick ts).1.prevTS = some ts) ∧
    ((r.startLoop none).tick ts).1.offset = r.offset ∧
    (((r.startLoop none).tick ts).1.tick ts2).1.offset
      = r.offset + r.speed * ((ts2 - ts) / 1000) := by
  have hidle := tick_idle_eq r ts hm
  have hsl : r.startLoop none = { r with mode := Mode.loop, prevTS := none } := rfl
  have hloop1 : ((r.startLoop none).tick ts).1 =
      { r with mode := Mode.loop, prevTS := some ts,
               offset := r.offset + r.speed * ((ts - ts) / 1000) } := by
    rw [hsl]
    rw [tick_loop_eq _ ts rfl]
    rfl
  have hofs1 : ((r.startLoop none).tick ts).1.offset = r.offset := by
    rw [hloop1]
    show r.offset + r.speed * ((ts - ts) / 1000) = r.offset
    rw [sub_self]
    norm_num
  refine ⟨?_, hofs1, ?_⟩
  · rw [hidle]
    exact ⟨rfl, hm, rfl, rfl, rfl, rfl, rfl, rfl, rfl, rfl, rfl, rfl⟩
  · rw [hloop1]
    rw [tick_loop_eq _ ts2 rfl]
    show (r.offset + r.speed * ((ts - ts) / 1000)) + r.speed * ((ts2 - (some ts).getD ts2) / 1000)
        = r.offset + r.speed * ((ts2 - ts) / 1000)
    simp [Option.getD_some]

/-- Witness for C8 (amended): applied to the concrete stopped reel
`c8Reel` (frozen at offset `300`): a tick at `500` leaves the offset at
`300`, and restarting the loop resumes from `300`, reaching
`300 + 1500·0.2 = 600` after a 200 ms step. -/
theorem claim8_stopLoop_freezes_offset_witness :
    (c8Reel.tick 500).1.offset = c8Reel.offset ∧
    ((c8Reel.startLoop none).tick 500).1.offset = c8Reel.offset ∧
    (((c8Reel.startLoop none).tick 500).1.tick 700).1.offset
      = c8Reel.offset + c8Reel.speed * ((700 - 500) / 1000) := by
  have h := claim8_stopLoop_freezes_offset c8Reel 500 700
    (by norm_num [c8Reel, Reeler.construct, Reeler.stopLoop, Reeler.tick, truthyOr,
      nullishOr, demoItems])
  exact ⟨h.1.1, h.2.1, h.2.2⟩

/-- A reel constructed with the configuration option
`fadeGradientAlpha: 0`. -/
def c9Reel : Reeler := Reeler.construct demoItems 150 { fadeGradientAlpha := some 0 }

/-- Counterexample to C9 as stated: constructing with the option
`fadeGradientAlpha = 0` does not skip the vignette.  The constructor reads
the option with `opts.fadeGradientAlpha || 0.6` (reeler.js line 33), and
`||` treats the configured `0` as falsy, so the field becomes the default
`0.6` and `_draw`'s guard `fadeGradientAlpha > 0` still emits both
gradients. -/
theorem claim9_counterexample :
    c9Reel.fadeGradientAlpha = 3/5 ∧ c9Reel.vignetteDrawn = true := by
  constructor
  · norm_num [c9Reel, Reeler.construct, truthyOr]
  · norm_num [c9Reel, Reeler.construct, truthyOr, Reeler.vignetteDrawn]

/-- Claim C9 (amended): the vignette gradients are skipped exactly when the
`fadeGradientAlpha` field is not positive; but a configured option value of
`0` does not take effect — the constructor's truthiness default replaces it
with `0.6`, so the field can be `0` only by direct assignment after
construction, while a nonzero configured value is honored. -/
theorem claim9_vignette_skip (s : Reeler) :
    (s.vignetteDrawn = false ↔ s.fadeGradientAlpha ≤ 0) ∧
    c9Reel.fadeGradientAlpha = 3/5 ∧
    c9Reel.vignetteDrawn = true ∧
    (Reeler.construct demoItems 150 { fadeGradientAlpha := some (1/4) }).fadeGradientAlpha
      = 1/4 := by
  refine ⟨?_, claim9_counterexample.1, claim9_counterexample.2, ?_⟩
  · constructor
    · intro h
      by_contra hpos
      push_neg at hpos
      simp [Reeler.vignetteDrawn, hpos] at h
    · intro h
      simp [Reeler.vignetteDrawn]
      linarith
  · norm_num [Reeler.construct, truthyOr]

/-- The scenario spin `spin(2, {rotations: 6})`, ticked once at `0` to
anchor the spin clock. -/
def c2AtSpin : Reeler := ((demoReel.spin 2 6).tick 0).1

/-- The corresponding v3.3 state at the same point of the same scenario:
mid-spin with `v0 = 1500`, `a = 234.375`, `T = 6.4 s`, total distance
`4800`, spin clock anchored at the nonzero timestamp `1000` ms (a zero
anchor would count as falsy and be re-anchored by v3.3's
`if (!this._spinStart)`). -/
def c2v33 : ReelerV33 :=
  { items := demoItems
    speed := 1500
    lineHeight := 150
    mode := Mode.spin
    offset := 0
    targetIdx := 2
    v0 := 1500
    a := 1875/8
    spinDurSec := 32/5
    spinTotalDist := 4800
    spinStart := some 1000
    highlightStart := none
    startTime := some 1000 }

/-- Claim C2 evidence (the code violates the claim): the v3.8R10 `_tick`
never invokes `onStop` — its event list is `[]` on every path, including
the tick that performs the spin → pause transition of the spec scenario
(offset clamped to `4800`, mode set to `pause`) — whereas the v3.3 `_tick`
of the same repository invoked `onStop(targetIdx)` exactly at its spin
completion (part_000 line 116), as the claim describes: at the tick at
`8000` ms the kept (truthy) anchor `1000` gives elapsed spin time
`7 s ≥ T = 6.4 s`, so v3.3 completes and fires `onStop(2)`. -/
theorem claim2_onStop_never_invoked :
    (∀ (r : Reeler) (ts : ℚ), (r.tick ts).2 = []) ∧
    ((c2AtSpin.tick 7000).1.mode = Mode.pause ∧
      (c2AtSpin.tick 7000).1.offset = 4800 ∧
      (c2AtSpin.tick 7000).2 = []) ∧
    ((tickV33 c2v33 8000).1.mode = Mode.highlight ∧
      (tickV33 c2v33 8000).2 = [2]) := by
  refine ⟨fun r ts => rfl, ⟨?_, ?_, rfl⟩, ?_, ?_⟩
  · norm_num [c2AtSpin, demoReel, Reeler.construct, truthyOr, Reeler.spin,
      demoItems, Reeler.tick, tmod_norm_two_five]
  · norm_num [c2AtSpin, demoReel, Reeler.construct, truthyOr, Reeler.spin,
      demoItems, Reeler.tick, tmod_norm_two_five]
  · norm_num [tickV33, c2v33, truthyOr]
  · norm_num [tickV33, c2v33, truthyOr]

/-- Concrete truncated division used in the wrap of offset `4650` by cycle
`750`. -/
theorem tdiv_31_5 : (31:ℤ).tdiv 5 = 6 := by decide

/-- Concrete truncated division used in the second wrap step
(`900 % 750`). -/
theorem tdiv_6_5 : (6:ℤ).tdiv 5 = 1 := by decide

/-- A spin with the fractional rotation count `6.2`:
`spin(0, {rotations: 6.2})` on the scenario reel. -/
def c1Spin : Reeler := demoReel.spin 0 (31/5)

/-- The same spin with its clock anchored by the first tick. -/
def c1A : Reeler := (c1Spin.tick 0).1

/-- The state after the tick at `7000` ms completes the spin (elapsed
`7 s > T = 6.2 s`): offset clamped to `4650`, mode `pause`. -/
def c1B : Reeler := (c1A.tick 7000).1

/-- The state after the tick at `7400` ms ends the 400 ms pause: mode
`highlight`, highlight clock anchored at `7400`. -/
def c1Highlight : Reeler := (c1B.tick 7400).1

/-- Claim C1 evidence (the code violates the claim): after the public-API
call sequence `spin(0, {rotations: 6.2})` and three ticks, the engine is in
highlight mode with `offset = 4650`, whose wrap `offsetMod = 150` centers
the row of cyclic index `1` while `targetIndex = 0`.  At full zoom progress
(`now = 8600`, `p = 1`) the v3.8R10 `_draw` (which tests `inCenter` only)
renders that wrong-index row zoomed to `scale = zoomScale = 1.8` at full
opacity, whereas the claim — and the earlier v3.8R9 `_draw`, which also
requires `idx === targetIdx` — gives that row `fadeOutAlpha = 0.2` opacity
and scale `1`. -/
theorem claim1_zoom_applied_without_index_check :
    c1Highlight.mode = Mode.highlight ∧
    c1Highlight.targetIdx = 0 ∧
    c1Highlight.offset = 4650 ∧
    c1Highlight.offsetMod = 150 ∧
    c1Highlight.zoomP 8600 = 1 ∧
    (c1Highlight.drawRow 900 8600 6).idx = 1 ∧
    (c1Highlight.drawRow 900 8600 6).y = 450 ∧
    (c1Highlight.drawRow 900 8600 6).visible = true ∧
    (c1Highlight.drawRow 900 8600 6).alpha = 1 ∧
    (c1Highlight.drawRow 900 8600 6).scale = 9/5 ∧
    c1Highlight.zoomScale = 9/5 ∧
    c1Highlight.fadeOutAlpha = 1/5 ∧
    Reeler.rowAttrsR9 c1Highlight 1 450 450 1 = (1/5, 1) := by
  have hmode : c1Highlight.mode = Mode.highlight := by
    norm_num [c1Highlight, c1B, c1A, c1Spin, demoReel, Reeler.construct, truthyOr,
      nullishOr, Reeler.spin, demoItems, Reeler.tick, tmod_norm_zero_five]
  have hoff : c1Highlight.offset = 4650 := by
    norm_num [c1Highlight, c1B, c1A, c1Spin, demoReel, Reeler.construct, truthyOr,
      nullishOr, Reeler.spin, demoItems, Reeler.tick, tmod_norm_zero_five]
  have htgt : c1Highlight.targetIdx = 0 := by
    norm_num [c1Highlight, c1B, c1A, c1Spin, demoReel, Reeler.construct, truthyOr,
      nullishOr, Reeler.spin, demoItems, Reeler.tick, tmod_norm_zero_five]
  have hlen : c1Highlight.items.length = 5 := by
    norm_num [c1Highlight, c1B, c1A, c1Spin, demoReel, Reeler.construct, truthyOr,
      nullishOr, Reeler.spin, demoItems, Reeler.tick, tmod_norm_zero_five]
  have hlh : c1Highlight.lineHeight = 150 := by
    norm_num [c1Highlight, c1B, c1A, c1Spin, demoReel, Reeler.construct, truthyOr,
      nullishOr, Reeler.spin, demoItems, Reeler.tick, tmod_norm_zero_five]
  have hhs : c1Highlight.highlightStart = some 7400 := by
    norm_num [c1Highlight, c1B, c1A, c1Spin, demoReel, Reeler.construct, truthyOr,
      nullishOr, Reeler.spin, demoItems, Reeler.tick, tmod_norm_zero_five]
  have hdur : c1Highlight.highlightAnimDuration = 1200 := by
    norm_num [c1Highlight, c1B, c1A, c1Spin, demoReel, Reeler.construct, truthyOr,
      nullishOr, Reeler.spin, demoItems, Reeler.tick, tmod_norm_zero_five]
  have hzs : c1Highlight.zoomScale = 9/5 := by
    norm_num [c1Highlight, c1B, c1A, c1Spin, demoReel, Reeler.construct, truthyOr,
      nullishOr, Reeler.spin, demoItems, Reeler.tick, tmod_norm_zero_five]
  have hfoa : c1Highlight.fadeOutAlpha = 1/5 := by
    norm_num [c1Highlight, c1B, c1A, c1Spin, demoReel, Reeler.construct, truthyOr,
      nullishOr, Reeler.spin, demoItems, Reeler.tick, tmod_norm_zero_five]
  have hmod : c1Highlight.offsetMod = 150 := by
    rw [Reeler.offsetMod, hlen, hlh, hoff]
    norm_num [jsModQ, ratTrunc]
    rw [tdiv_31_5]
    norm_num
    rw [tdiv_6_5]
    norm_num
  have hp : c1Highlight.zoomP 8600 = 1 := by
    rw [Reeler.zoomP, if_pos hmode, hhs, hdur]
    norm_num
  refine ⟨hmode, htgt, hoff, hmod, hp, ?_, ?_, ?_, ?_, ?_, hzs, hfoa, ?_⟩
  · rw [Reeler.drawRow]
    simp only [hlen]
  · rw [Reeler.drawRow]
    simp only [hlen, hlh, hmod]
    norm_num
  · rw [Reeler.drawRow]
    simp only [hlen, hlh, hmod]
    norm_num
  · rw [Reeler.drawRow]
    simp only [hlen, hlh, hmod, hp, if_pos hmode]
    norm_num
  · rw [Reeler.drawRow]
    simp only [hlen, hlh, hmod, hp, if_pos hmode, hzs]
    norm_num [easeOutCubic]
  · rw [Reeler.rowAttrsR9, if_neg (by rw [htgt]; norm_num), hfoa]

/-- Unfolding lemma for the `JSVal` addition instance. -/
theorem jsval_add_def (a b : JSVal) : a + b = JSVal.add a b := rfl

/-- Unfolding lemma for the `JSVal` subtraction instance. -/
theorem jsval_sub_def (a b : JSVal) : a - b = JSVal.sub a b := rfl

/-- Unfolding lemma for the `JSVal` multiplication instance. -/
theorem jsval_mul_def (a b : JSVal) : a * b = JSVal.mul a b := rfl

/-- Unfolding lemma for the `JSVal` division instance. -/
theorem jsval_div_def (a b : JSVal) : a / b = JSVal.div a b := rfl

/-- Unfolding lemma for the `JSVal` remainder instance. -/
theorem jsval_mod_def (a b : JSVal) : a % b = JSVal.mod a b := rfl

/-- The spin-parameter computation of `spin` on an empty item list, in JS
number semantics: `targetIndex % 0` is `NaN` and the taint propagates. -/
def spEmpty : SpinParamsJS :=
  spinParamsJS 0 (JSVal.fin 150) (JSVal.fin 1500) (JSVal.fin 2) (JSVal.fin 6)

/-- Counterexample to C5 as stated: nothing fails fast.  The constructor
accepts a zero-length item list (the engine is built and starts looping),
and a subsequent `spin` silently computes `NaN` for the target index, the
spin distance, the deceleration and the duration, so the very first spin
tick assigns a `NaN` offset (`t <= NaN` is false, so the clamp branch
stores `spinDist = NaN`). -/
theorem claim5_counterexample :
    (Reeler.construct [] 150 {}).mode = Mode.loop ∧
    (Reeler.construct [] 150 {}).items.length = 0 ∧
    spEmpty.targetIdx = JSVal.nan ∧
    spEmpty.spinDist = JSVal.nan ∧
    spEmpty.accel = JSVal.nan ∧
    spEmpty.spinT = JSVal.nan ∧
    spinTickOffsetJS (JSVal.fin 1500) spEmpty.accel spEmpty.spinT spEmpty.spinDist
      (JSVal.fin 0) = JSVal.nan := by
  refine ⟨rfl, rfl, ?_, ?_, ?_, ?_, ?_⟩ <;>
    norm_num [spEmpty, spinParamsJS, spinTickOffsetJS, jsval_add_def, jsval_sub_def,
      jsval_mul_def, jsval_div_def, jsval_mod_def, JSVal.add, JSVal.sub, JSVal.mul,
      JSVal.div, JSVal.mod, JSVal.neg, JSVal.le]

/-- Concrete truncated division `2 tdiv 5` used in the wrap of index `2`. -/
theorem tdiv_2_5 : (2:ℤ).tdiv 5 = 0 := by decide

/-- Concrete truncated division `7 tdiv 5` used in the wrap of index `2`. -/
theorem tdiv_7_5 : (7:ℤ).tdiv 5 = 1 := by decide

/-- The spin-parameter computation of `spin(2, {rotations: 6})` with the
negative speed `-100` on the 5-item geometry, in JS number semantics. -/
def spNeg : SpinParamsJS :=
  spinParamsJS 5 (JSVal.fin 150) (JSVal.fin (-100)) (JSVal.fin 2) (JSVal.fin 6)

/-- Claim C5 (amended): the engine does not fail fast.  A configured speed
of `0` is the one case that is effectively clamped — the constructor's
truthiness default `opts.speed || 1500` replaces it with the positive
default — but a zero-length item list is accepted (the engine constructs
and loops) and `spin` then silently produces `NaN` spin parameters and a
`NaN` offset on the first spin tick; a negative speed is accepted
unchanged, and `spin` then computes a negative duration, so the first tick
skips the kinematic formula and immediately clamps the offset to the full
spin distance (finite, no `NaN`). -/
theorem claim5_no_fail_fast_amended :
    (Reeler.construct demoItems 150 { speed := some 0 }).speed = 1500 ∧
    (Reeler.construct demoItems 150 { speed := some (-100) }).speed = -100 ∧
    (Reeler.construct [] 150 {}).mode = Mode.loop ∧
    spEmpty.spinDist = JSVal.nan ∧
    spinTickOffsetJS (JSVal.fin 1500) spEmpty.accel spEmpty.spinT spEmpty.spinDist
      (JSVal.fin 1) = JSVal.nan ∧
    spNeg.spinDist = JSVal.fin 4800 ∧
    spNeg.spinT = JSVal.fin (-96) ∧
    spinTickOffsetJS (JSVal.fin (-100)) spNeg.accel spNeg.spinT spNeg.spinDist
      (JSVal.fin 0) = JSVal.fin 4800 := by
  refine ⟨?_, ?_, rfl, ?_, ?_, ?_, ?_, ?_⟩ <;>
    norm_num [Reeler.construct, truthyOr, spEmpty, spNeg, spinParamsJS,
      spinTickOffsetJS, jsval_add_def, jsval_sub_def, jsval_mul_def, jsval_div_def,
      jsval_mod_def, JSVal.add, JSVal.sub, JSVal.mul, JSVal.div, JSVal.mod,
      JSVal.neg, JSVal.le, jsModQ, ratTrunc, tdiv_2_5, tdiv_7_5]

/-- The spin-parameter computation of `spin(0, {rotations: 0})` on the
5-item geometry (`speed = 1500`, `lineHeight = 150`), in JS number
semantics: the computed spin distance is `0`. -/
def spZero : SpinParamsJS :=
  spinParamsJS 5 (JSVal.fin 150) (JSVal.fin 1500) (JSVal.fin 0) (JSVal.fin 0)

/-- Claim C10: `spin(0, {rotations: 0})` resolves target index `0` and spin
distance `0`, so the unguarded division `v0²/(2·D)` yields
`accel = Infinity` and `spinT = 1500/Infinity = 0`; the first spin tick (at
spin-elapsed time `0`, where `0 <= spinT` holds) evaluates
`1500·0 − 0.5·Infinity·0·0 = NaN` into the offset, and every later tick
(elapsed time `t > 0`, failing `t <= 0`) clamps the offset to the zero
distance. -/
theorem claim10_zero_distance_division (t : ℚ) (ht : 0 < t) :
    spZero.targetIdx = JSVal.fin 0 ∧
    spZero.spinDist = JSVal.fin 0 ∧
    spZero.accel = JSVal.inf ∧
    spZero.spinT = JSVal.fin 0 ∧
    spinTickOffsetJS (JSVal.fin 1500) spZero.accel spZero.spinT spZero.spinDist
      (JSVal.fin 0) = JSVal.nan ∧
    spinTickOffsetJS (JSVal.fin 1500) spZero.accel spZero.spinT spZero.spinDist
      (JSVal.fin t) = JSVal.fin 0 := by
  have h1 : spZero.targetIdx = JSVal.fin 0 := by
    norm_num [spZero, spinParamsJS, jsval_add_def, jsval_mul_def, jsval_div_def,
      jsval_mod_def, JSVal.add, JSVal.mul, JSVal.div, JSVal.mod, jsModQ, ratTrunc]
  have h2 : spZero.spinDist = JSVal.fin 0 := by
    norm_num [spZero, spinParamsJS, jsval_add_def, jsval_mul_def, jsval_div_def,
      jsval_mod_def, JSVal.add, JSVal.mul, JSVal.div, JSVal.mod, jsModQ, ratTrunc]
  have h3 : spZero.accel = JSVal.inf := by
    norm_num [spZero, spinParamsJS, jsval_add_def, jsval_mul_def, jsval_div_def,
      jsval_mod_def, JSVal.add, JSVal.mul, JSVal.div, JSVal.mod, jsModQ, ratTrunc]
  have h4 : spZero.spinT = JSVal.fin 0 := by
    norm_num [spZero, spinParamsJS, jsval_add_def, jsval_mul_def, jsval_div_def,
      jsval_mod_def, JSVal.add, JSVal.mul, JSVal.div, JSVal.mod, jsModQ, ratTrunc]
  refine ⟨h1, h2, h3, h4, ?_, ?_⟩
  · rw [h2, h3, h4]
    norm_num [spinTickOffsetJS, jsval_sub_def, jsval_mul_def, JSVal.sub, JSVal.mul,
      JSVal.add, JSVal.neg, JSVal.le]
  · rw [h2, h3, h4]
    rw [spinTickOffsetJS]
    rw [if_neg (by simp [JSVal.le]; linarith)]

/-- Witness for C10 at the concrete later tick time `t = 1` second. -/
theorem claim10_zero_distance_division_witness :
    spinTickOffsetJS (JSVal.fin 1500) spZero.accel spZero.spinT spZero.spinDist
      (JSVal.fin 1) = JSVal.fin 0 :=
  (claim10_zero_distance_division 1 (by norm_num)).2.2.2.2.2

/-- Witness for C9 (amended): with the field `fadeGradientAlpha` set to `0`
by direct assignment after construction, both vignette gradients are
skipped. -/
theorem claim9_vignette_skip_witness :
    ({ c9Reel with fadeGradientAlpha := 0 } : Reeler).vignetteDrawn = false :=
  (claim9_vignette_skip { c9Reel with fadeGradientAlpha := 0 }).1.mpr (by norm_num)
